import Mathlib

/-
Verification development for the Tiklog delivery application.

The definitions below are a shallow embedding of the dispatch and
delivery-lifecycle engine:
  - DeliveryController.findRiders (rider discovery, ETA computation),
  - RabbitMqService (connection registry, response relay,
    start/end-of-delivery lifecycle with wallet settlement).

JavaScript numbers are modelled as rationals; JavaScript Math.round is
modelled by jsRound (round half toward positive infinity, the JS rule).
Database collections are modelled as lists of records, the Redis match
cache as an Option, and socket emissions as an event trace.
-/

set_option autoImplicit false

/-- JavaScript Math.round: rounds to the nearest integer, halves toward
positive infinity. -/
def jsRound (q : ℚ) : ℤ := ⌊q + 1 / 2⌋

/-! ## Rider discovery (DeliveryController.findRiders) -/

/-- A rider document (models/Rider: status, nullable active flag, busy flag).
The nullable active flag is falsy in the source unless it is true, so it is
modelled as a Bool. -/
structure RiderRec where
  rid : String
  status : String
  active : Bool
  busy : Bool
  deriving DecidableEq, Repr

/-- One element of the geoNear aggregation result: a rider location record
with its computed distance (meters) from the customer. -/
structure RiderLoc where
  rider : String
  distance : ℚ
  deriving DecidableEq, Repr

/-- The selection loop of findRiders: scan the (distance-ascending) geoNear
results, look each rider up by id, and take the first whose status is
"online" and whose active flag is truthy; the loop breaks at the first hit. -/
def selectRider (lookup : String → Option RiderRec) : List RiderLoc → Option RiderRec
  | [] => none
  | loc :: rest =>
    match lookup loc.rider with
    | some r => if r.status == "online" && r.active then some r else selectRider lookup rest
    | none => selectRider lookup rest

/-- A vehicle document; only vehicleType is read by findRiders. -/
structure Vehicle where
  vehicleType : String
  deriving DecidableEq, Repr

/-- Speed resolution of findRiders: speedInKmPerHour starts at 0 and is
increased by the per-type constant only when a vehicle document was found
(the constants themselves live in config/constants and are parameters here). -/
def speedFor (bikeSpeed carSpeed busSpeed averageSpeed : ℚ) : Option Vehicle → ℚ
  | some v =>
    if v.vehicleType == "bike" then bikeSpeed
    else if v.vehicleType == "car" then carSpeed
    else if v.vehicleType == "bus" then busSpeed
    else averageSpeed
  | none => 0

/-- The ETA accumulation of findRiders: for every rider returned by the
radius query (not only the selected one), add distance-in-km divided by the
selected rider's speed. -/
def estimatedTimeToSender (riderLocs : List RiderLoc) (speed : ℚ) : ℚ :=
  riderLocs.foldl (fun acc elem => acc + (elem.distance / 1000) / speed) 0

/-- hours = Math.floor(estimatedTimeToSender). -/
def computeHours (t : ℚ) : ℤ := ⌊t⌋

/-- minutes = Math.round((estimatedTimeToSender - hours) * 60). -/
def computeMinutes (t : ℚ) : ℤ := jsRound ((t - computeHours t) * 60)

/-- The reported arrival time: starts at 0 and adds 2 when the computed
minutes value is at most 2, otherwise adds the minutes value. -/
def arrivalTime (t : ℚ) : ℤ :=
  if computeMinutes t ≤ 2 then 0 + 2 else 0 + computeMinutes t

/-- A delivery document, restricted to the fields the core reads and
writes: id, status, deliveryFee, the nullable rider reference, and the
sender coordinates (senderLocation.coordinates = [longitude, latitude]).
The status string constants come from config/constants (not under src/);
following the spec status set they are "pending", "on_transit",
"delivered". -/
structure DeliveryDoc where
  did : String
  status : String
  deliveryFee : ℚ
  rider : Option String
  senderLon : ℚ
  senderLat : ℚ
  deriving DecidableEq, Repr

/-- Outcome of findRiders: a NotFound rejection with its message, a thrown
TypeError, or success carrying the selected rider and the reported arrival
time. -/
inductive FindRes where
  | notFound (msg : String)
  | typeError
  | ok (rider : RiderRec) (arrival : ℤ)
  deriving DecidableEq, Repr

/-- DeliveryController.findRiders, as a function of the database reads it
performs: the customer's delivery list (findAll result), the geoNear
aggregation (given the sender coordinates it returns the rider locations
within the radius, sorted ascending by distance), the rider lookup, the
vehicle lookup, and the speed constants.

The source guards the delivery list with a falsy check, but findAll returns
an array and an array is always truthy, so that guard never fires; with an
empty list the subsequent read of lastDelivery.senderLocation throws a
TypeError instead. -/
def findRiders (deliveries : List DeliveryDoc) (geoNear : ℚ → ℚ → List RiderLoc)
    (lookup : String → Option RiderRec) (vehicleOf : String → Option Vehicle)
    (bikeSpeed carSpeed busSpeed averageSpeed : ℚ) : FindRes :=
  match deliveries.getLast? with
  | none => .typeError
  | some lastDelivery =>
    let riderLocs := geoNear lastDelivery.senderLon lastDelivery.senderLat
    if riderLocs.isEmpty then .notFound "No riders available at the moment"
    else
      match selectRider lookup riderLocs with
      | none => .notFound "No rider is currently online"
      | some rider =>
        let speed := speedFor bikeSpeed carSpeed busSpeed averageSpeed (vehicleOf rider.rid)
        .ok rider (arrivalTime (estimatedTimeToSender riderLocs speed))

/-! ## Connection registry and delivery lifecycle (RabbitMqService) -/

/-- A live socket connection: an object identity (ref) plus its socket id
string. -/
structure Socket where
  ref : ℕ
  sid : String
  deriving DecidableEq, Repr

/-- The JavaScript values compared by the registry reverse lookup: either a
string or a socket object. -/
inductive JsVal where
  | vstr (s : String)
  | vsock (s : Socket)
  deriving DecidableEq, Repr

/-- JavaScript strict equality on those values: strings compare by content,
objects by reference identity, and a value of one type is never strictly
equal to a value of the other. -/
def jsStrictEq : JsVal → JsVal → Bool
  | .vstr a, .vstr b => a == b
  | .vsock a, .vsock b => a.ref == b.ref
  | _, _ => false

/-- The connection registry: identity to socket, insertion-ordered; a Map
lookup compares keys by string equality. -/
def mapGet (m : List (String × Socket)) (k : String) : Option Socket :=
  (m.find? (fun e => e.1 == k)).map (fun e => e.2)

/-- RabbitMqService.findRiderIdBySocketId: iterate the socketMap entries
[riderId, socket] and return the riderId of the first entry whose VALUE is
strictly equal (===) to the given socket id string. The value is a socket
object, so the comparison is object-versus-string. -/
def findRiderIdBySocketId (m : List (String × Socket)) (socketId : String) : Option String :=
  (m.find? (fun e => jsStrictEq (.vsock e.2) (.vstr socketId))).map (fun e => e.1)

/-- The match record stored in Redis under the PACKAGE_REQUEST_INFO key. -/
structure MatchRecord where
  deliveryId : String
  riderId : String
  customerId : String
  deliveryRefNumber : String
  estimatedDeliveryTime : String
  deriving DecidableEq, Repr

/-- A rider wallet document: generated document id, rider reference and
balance. The balance is an Option because the settlement code can write a
JavaScript null into it. -/
structure Wallet where
  wid : String
  rider : String
  balance : Option ℚ
  deriving DecidableEq, Repr

/-- The append-only admin fee record written at end of delivery. -/
structure AdminFeeRec where
  deliveryRefNumber : String
  rider : String
  adminFee : Option ℚ
  deriving DecidableEq, Repr

/-- The rider-availability notification document persisted by
riderAvailability. -/
structure NotificationRec where
  deliveryRefNumber : String
  riderAvailabilityStatus : Bool
  rider : String
  customer : String
  delivery : String
  deriving DecidableEq, Repr

/-- One socket emission: the ref of the receiving socket and the event
name. -/
structure Emit where
  target : ℕ
  event : String
  deriving DecidableEq, Repr

/-- The state touched by RabbitMqService: the socket map, the Redis match
cache, the persistent collections, the emission trace, and a counter for
generated document ids. -/
structure SysState where
  socketMap : List (String × Socket)
  matchCache : Option MatchRecord
  deliveries : List DeliveryDoc
  riders : List RiderRec
  wallets : List Wallet
  adminFees : List AdminFeeRec
  notifications : List NotificationRec
  emitted : List Emit
  nextId : ℕ
  deriving DecidableEq, Repr

/-- updateByAny / updateOne with a filter: patch the first document
matching the predicate (or none), returning the new list and the updated
document when a match existed. -/
def updateFirst {α : Type} (p : α → Bool) (f : α → α) : List α → List α × Option α
  | [] => ([], none)
  | x :: xs =>
    if p x then (f x :: xs, some (f x))
    else
      let r := updateFirst p f xs
      (x :: r.1, r.2)

/-- The settlement arithmetic of endDeliveryNotification, as a function of
the updateByAny result for the delivery: adminFee = delivery &&
ADMIN_CHARGES/100 * delivery.deliveryFee, riderFee = delivery &&
delivery.deliveryFee - Math.round(adminFee); with a null delivery both
short-circuit to null. -/
def endFees (adminCharges : ℚ) : Option DeliveryDoc → Option ℚ × Option ℚ
  | some d =>
    let adminFee := adminCharges / 100 * d.deliveryFee
    (some adminFee, some (d.deliveryFee - jsRound adminFee))
  | none => (none, none)

/-- The balance written into the wallet update: riderFee && riderFee +
riderWallet.balance. A null riderFee short-circuits to null, a zero
riderFee short-circuits to 0, and a null stored balance coerces to 0 under
JavaScript addition. -/
def walletPatchBalance (riderFee : Option ℚ) (w : Wallet) : Option ℚ :=
  match riderFee with
  | none => none
  | some rf => if rf = 0 then some 0 else some (rf + w.balance.getD 0)

/-- RabbitMqService.riderAvailability: read the match cache and persist a
notification document recording the availability answer. When the cache is
empty, destructuring the null value throws before any write, so the state
is unchanged. -/
def riderAvailability (availabilityStatus : Bool) (s : SysState) : SysState :=
  match s.matchCache with
  | none => s
  | some mc =>
    { s with
      notifications := s.notifications ++
        [⟨mc.deliveryRefNumber, availabilityStatus, mc.riderId, mc.customerId, mc.deliveryId⟩] }

/-- RabbitMqService.startDeliveryNotification: only when the customer in
the signal has a live socket, read the match cache (an empty cache throws
at the destructuring, before any effect), emit startDeliveryNotification to
the customer, set the delivery status to on_transit, and set the rider
busy. -/
def startDeliveryNotification (customerId : String) (s : SysState) : SysState :=
  match mapGet s.socketMap customerId with
  | none => s
  | some customerSocket =>
    match s.matchCache with
    | none => s
    | some mc =>
      let emitted := s.emitted ++ [⟨customerSocket.ref, "startDeliveryNotification"⟩]
      let ds := (updateFirst (fun d => d.did == mc.deliveryId)
        (fun d => { d with status := "on_transit" }) s.deliveries).1
      let rs := (updateFirst (fun r => r.rid == mc.riderId)
        (fun r => { r with busy := true }) s.riders).1
      { s with emitted := emitted, deliveries := ds, riders := rs }

/-- RabbitMqService.endDeliveryNotification: only when the customer in the
signal has a live socket, read the match cache (an empty cache throws at
the destructuring, before any effect), emit endDeliveryNotification, set
the delivery status to delivered, clear the rider busy flag, settle the
fees, update or create the rider wallet, append the admin fee record, and
delete the match cache key.

The wallet is looked up with filter rider = riderId, but the update is
issued with filter _id = riderId, and the created wallet receives a fresh
generated document id. -/
def endDeliveryNotification (adminCharges : ℚ) (customerId : String) (s : SysState) : SysState :=
  match mapGet s.socketMap customerId with
  | none => s
  | some customerSocket =>
    match s.matchCache with
    | none => s
    | some mc =>
      let emitted := s.emitted ++ [⟨customerSocket.ref, "endDeliveryNotification"⟩]
      let dres := updateFirst (fun d => d.did == mc.deliveryId)
        (fun d => { d with status := "delivered" }) s.deliveries
      let rs := (updateFirst (fun r => r.rid == mc.riderId)
        (fun r => { r with busy := false }) s.riders).1
      let riderWallet := s.wallets.find? (fun w => w.rider == mc.riderId)
      let fees := endFees adminCharges dres.2
      let sett : List Wallet × ℕ :=
        match riderWallet with
        | some w =>
          ((updateFirst (fun x => x.wid == mc.riderId)
            (fun x => { x with balance := walletPatchBalance fees.2 w }) s.wallets).1,
           s.nextId)
        | none =>
          (s.wallets ++ [⟨"generated" ++ toString s.nextId, mc.riderId, fees.2⟩],
           s.nextId + 1)
      { s with
        emitted := emitted
        deliveries := dres.1
        riders := rs
        wallets := sett.1
        adminFees := s.adminFees ++ [⟨mc.deliveryRefNumber, mc.riderId, fees.1⟩]
        nextId := sett.2
        matchCache := none }

/-- The driver-response payload consumed from the driver_responses
exchange. -/
structure DriverResponse where
  riderId : String
  customerId : String
  availability : Bool
  deriving DecidableEq, Repr

/-- RabbitMqService.notifyUserAboutDriverResponse: nothing happens unless
the customer has a live socket. On availability = true: emit riderResponse,
persist the availability notification, then read the match cache and set
delivery.rider (an empty cache throws at the destructuring, after the emit
and the availability write). On availability = false: persist the
availability notification, emit riderDeclined, and delete the match cache
key. -/
def notifyUserAboutDriverResponse (resp : DriverResponse) (s : SysState) : SysState :=
  match mapGet s.socketMap resp.customerId with
  | none => s
  | some customerSocket =>
    if resp.availability then
      let s1 := { s with emitted := s.emitted ++ [⟨customerSocket.ref, "riderResponse"⟩] }
      let s2 := riderAvailability resp.availability s1
      match s2.matchCache with
      | none => s2
      | some mc =>
        let ds := (updateFirst (fun d => d.did == mc.deliveryId)
          (fun d => { d with rider := some mc.riderId }) s2.deliveries).1
        { s2 with deliveries := ds }
    else
      let s1 := riderAvailability resp.availability s
      let s2 : SysState :=
        { s1 with emitted := s1.emitted ++ [⟨customerSocket.ref, "riderDeclined"⟩] }
      { s2 with matchCache := none }

/-! ## Concrete example data -/

/-- A rider lookup with an offline rider and an online, active rider. -/
def lookupW : String → Option RiderRec := fun rid =>
  if rid = "rOffline" then some ⟨"rOffline", "offline", true, false⟩
  else if rid = "rOnline" then some ⟨"rOnline", "online", true, false⟩
  else none

/-- GeoNear result: the offline rider is closer than the online one. -/
def locsW : List RiderLoc := [⟨"rOffline", 1000⟩, ⟨"rOnline", 2000⟩]

/-- A concrete delivery document. -/
def dW : DeliveryDoc := ⟨"d1", "pending", 100, none, 0, 0⟩

/-- A vehicle lookup that finds no vehicle. -/
def vehicleOfW : String → Option Vehicle := fun _ => none

/-- The match record of the running example: delivery d1, rider r1,
customer c1. -/
def mcW : MatchRecord := ⟨"d1", "r1", "c1", "ref1", "1hrs:30min"⟩

/-- State for the lifecycle example: customer c1 connected, match record
present, delivery d1 still pending, rider r1 busy, no wallets. -/
def statePending : SysState :=
  { socketMap := [("c1", ⟨0, "s0"⟩)]
    matchCache := some mcW
    deliveries := [dW]
    riders := [⟨"r1", "online", true, true⟩]
    wallets := []
    adminFees := []
    notifications := []
    emitted := []
    nextId := 0 }

/-- Same state but with an existing wallet for rider r1 (document id w1,
balance 50) and the delivery already on transit. -/
def stateWithWallet : SysState :=
  { statePending with
    deliveries := [⟨"d1", "on_transit", 100, some "r1", 0, 0⟩]
    wallets := [⟨"w1", "r1", some 50⟩] }

/-- State with a match record present but no connected customer. -/
def stateDisconnected : SysState :=
  { statePending with socketMap := [] }

/-- State with customer c1 connected on socket ref 7. -/
def stateConnected : SysState :=
  { statePending with socketMap := [("c1", ⟨7, "sC"⟩)] }

/-! ## Theorems -/

/-- Shared helper: riderAvailability never changes the emission trace or
the match cache. -/
theorem riderAvailability_frame (b : Bool) (s : SysState) :
    (riderAvailability b s).emitted = s.emitted ∧
    (riderAvailability b s).matchCache = s.matchCache ∧
    (riderAvailability b s).socketMap = s.socketMap := by
  unfold riderAvailability
  cases h : s.matchCache <;> simp [h]

/-- Shared helper: searching the patched list after updateFirst finds the
patched version of the originally found document, provided the patch
preserves the search predicate. -/
theorem find?_updateFirst {α : Type} (p : α → Bool) (f : α → α) (l : List α)
    (hpf : ∀ a, p a = true → p (f a) = true) :
    ((updateFirst p f l).1.find? p) = (l.find? p).map f := by
  induction l with
  | nil => rfl
  | cons x xs ih =>
    by_cases hx : p x = true
    · simp [updateFirst, hx, List.find?, hpf x hx]
    · simp only [updateFirst, hx, if_false, Bool.false_eq_true]
      simp only [List.find?, hx, hpf, Bool.false_eq_true, if_false]
      simpa [hx] using ih

/-- C1: for every completed delivery with delivery fee f, the settlement
computed by endDelivery satisfies adminFee = ADMIN_CHARGES/100 * f and
riderFee = f - round(adminFee), so riderFee + round(adminFee) = f: the
split is conservative up to rounding of adminFee. -/
theorem endFees_conservative (adminCharges : ℚ) (d : DeliveryDoc) :
    (endFees adminCharges (some d)).1 = some (adminCharges / 100 * d.deliveryFee) ∧
    ∃ rf : ℚ, (endFees adminCharges (some d)).2 = some rf ∧
      rf + (jsRound (adminCharges / 100 * d.deliveryFee) : ℚ) = d.deliveryFee := by
  refine ⟨rfl, d.deliveryFee - jsRound (adminCharges / 100 * d.deliveryFee), rfl, by ring⟩

/-- C7: the reported arrival time is always at least 2 minutes; it equals
2 exactly when the computed minutes value is at most 2, and equals the
computed minutes value otherwise. -/
theorem arrivalTime_two_minute_floor (t : ℚ) :
    2 ≤ arrivalTime t ∧
    (computeMinutes t ≤ 2 → arrivalTime t = 2) ∧
    (2 < computeMinutes t → arrivalTime t = computeMinutes t) := by
  unfold arrivalTime
  by_cases h : computeMinutes t ≤ 2 <;> simp [h]
  all_goals omega

/-- C7 witness: on an aggregate time of 1.5 hours the computed minutes are
30 and the reported arrival is 30; on an aggregate time of 2 minutes the
reported arrival is the 2-minute floor. -/
theorem arrivalTime_two_minute_floor_witness :
    arrivalTime (3 / 2 : ℚ) = 30 ∧ arrivalTime (1 / 30 : ℚ) = 2 := by
  have h30 : computeMinutes (3 / 2 : ℚ) = 30 := by
    norm_num [computeMinutes, computeHours, jsRound]
  have h2 : computeMinutes (1 / 30 : ℚ) = 2 := by
    norm_num [computeMinutes, computeHours, jsRound]
  exact ⟨((arrivalTime_two_minute_floor (3 / 2)).2.2 (by rw [h30]; norm_num)).trans h30,
    (arrivalTime_two_minute_floor (1 / 30)).2.1 (by rw [h2])⟩

/-- C10: the reported arrival time carries only the sub-hour remainder of
the aggregate estimated time: it equals round((t - floor t) * 60) clamped
below at 2, adding a whole hour to the aggregate never changes it, and an
aggregate of 1 hour 30 minutes is reported as 30 minutes. -/
theorem arrivalTime_drops_whole_hours (t : ℚ) :
    arrivalTime t = max 2 (jsRound ((t - ⌊t⌋) * 60)) ∧
    arrivalTime (t + 1) = arrivalTime t ∧
    arrivalTime (3 / 2 : ℚ) = 30 := by
  have hmin : ∀ u : ℚ, computeMinutes u = jsRound ((u - ⌊u⌋) * 60) := fun u => rfl
  refine ⟨?_, ?_, ?_⟩
  · rw [← hmin]
    unfold arrivalTime
    by_cases h : computeMinutes t ≤ 2 <;> simp [h]
    all_goals omega

  · have hsame : computeMinutes (t + 1) = computeMinutes t := by
      rw [hmin, hmin]
      have hfl : ⌊t + 1⌋ = ⌊t⌋ + 1 := by
        exact_mod_cast Int.floor_add_int t 1
      rw [hfl]
      push_cast
      ring_nf
    unfold arrivalTime
    rw [hsame]
  · have h30 : computeMinutes (3 / 2 : ℚ) = 30 := by
      norm_num [computeMinutes, computeHours, jsRound]
    unfold arrivalTime
    rw [h30]
    norm_num

/-- C8: the registry reverse lookup never succeeds: it strictly compares
each stored socket object against the socket id string, and an object is
never strictly equal to a string, so the lookup returns absent even when a
registered connection has the queried connection identity. -/
theorem findRiderIdBySocketId_never_finds :
    (∀ (m : List (String × Socket)) (socketId : String),
      findRiderIdBySocketId m socketId = none) ∧
    findRiderIdBySocketId [("r1", ⟨0, "s1"⟩)] "s1" = none := by
  constructor
  · intro m socketId
    induction m with
    | nil => rfl
    | cons e rest ih =>
      unfold findRiderIdBySocketId at ih ⊢
      simp only [List.find?, jsStrictEq]
      exact ih
  · rfl

/-- C9: when the customer identified in the signal has no live connection,
endDelivery and startDelivery are complete no-ops: the whole state (the
delivery statuses, the rider busy flags, the wallets, the admin fee
records, the match cache and the emission trace) is unchanged. -/
theorem lifecycle_noop_when_disconnected (adminCharges : ℚ) (customerId : String)
    (s : SysState) (h : mapGet s.socketMap customerId = none) :
    endDeliveryNotification adminCharges customerId s = s ∧
    startDeliveryNotification customerId s = s := by
  unfold endDeliveryNotification startDeliveryNotification
  rw [h]
  exact ⟨rfl, rfl⟩

/-- C9 witness: in the concrete state with no connected sockets, both
lifecycle operations leave the state untouched. -/
theorem lifecycle_noop_when_disconnected_witness :
    endDeliveryNotification 10 "c1" stateDisconnected = stateDisconnected ∧
    startDeliveryNotification "c1" stateDisconnected = stateDisconnected :=
  lifecycle_noop_when_disconnected 10 "c1" stateDisconnected (by decide)

/-- C3: whenever the selection loop over the distance-ascending geoNear
results returns a rider, that rider is online and active, it comes from
some position n of the list, and no rider at an earlier (closer) position
is online and active: discovery never selects an ineligible rider and
never skips over a closer eligible one. -/
theorem selectRider_first_eligible (lookup : String → Option RiderRec)
    (locs : List RiderLoc) (r : RiderRec)
    (h : selectRider lookup locs = some r) :
    (r.status = "online" ∧ r.active = true) ∧
    ∃ n : ℕ, ∃ hn : n < locs.length,
      lookup (locs.get ⟨n, hn⟩).rider = some r ∧
      ∀ (m : ℕ) (hm : m < locs.length), m < n →
        ∀ r' : RiderRec, lookup (locs.get ⟨m, hm⟩).rider = some r' →
          ¬(r'.status = "online" ∧ r'.active = true) := by
  induction locs with
  | nil => exact absurd h (by simp [selectRider])
  | cons loc rest ih =>
    cases hl : lookup loc.rider with
    | some r0 =>
      simp only [selectRider, hl] at h
      by_cases he : (r0.status == "online" && r0.active) = true
      · rw [if_pos he] at h
        obtain rfl : r0 = r := by injection h
        simp only [Bool.and_eq_true, beq_iff_eq] at he
        refine ⟨⟨he.1, he.2⟩, 0, by simp, by simpa using hl, ?_⟩
        intro m hm hm0
        omega
      · rw [if_neg he] at h
        obtain ⟨helig, n, hn, hlook, hprev⟩ := ih h
        refine ⟨helig, n + 1, by simp only [List.length_cons]; omega, hlook, ?_⟩
        intro m hm hmn r' hr'
        cases m with
        | zero =>
          have hr2 : lookup loc.rider = some r' := hr'
          rw [hl] at hr2
          obtain rfl : r0 = r' := by injection hr2
          intro hcon
          apply he
          simp [hcon.1, hcon.2]
        | succ mp =>
          have hm' : mp < rest.length := by
            simp only [List.length_cons] at hm
            omega
          exact hprev mp hm' (by omega) r' hr'
    | none =>
      simp only [selectRider, hl] at h
      obtain ⟨helig, n, hn, hlook, hprev⟩ := ih h
      refine ⟨helig, n + 1, by simp only [List.length_cons]; omega, hlook, ?_⟩
      intro m hm hmn r' hr'
      cases m with
      | zero =>
        have hr2 : lookup loc.rider = some r' := hr'
        rw [hl] at hr2
        exact absurd hr2 (by simp)
      | succ mp =>
        have hm' : mp < rest.length := by
          simp only [List.length_cons] at hm
          omega
        exact hprev mp hm' (by omega) r' hr'

/-- C3 witness: with an offline rider closer than an online, active one,
the loop selects the online rider from position 1 and position 0 holds no
eligible rider. -/
theorem selectRider_first_eligible_witness :
    ((RiderRec.mk "rOnline" "online" true false).status = "online" ∧
      (RiderRec.mk "rOnline" "online" true false).active = true) ∧
    ∃ n : ℕ, ∃ hn : n < locsW.length,
      lookupW (locsW.get ⟨n, hn⟩).rider = some (RiderRec.mk "rOnline" "online" true false) ∧
      ∀ (m : ℕ) (hm : m < locsW.length), m < n →
        ∀ r' : RiderRec, lookupW (locsW.get ⟨m, hm⟩).rider = some r' →
          ¬(r'.status = "online" ∧ r'.active = true) :=
  selectRider_first_eligible lookupW locsW (RiderRec.mk "rOnline" "online" true false)
    (by decide)

/-- C4 counterexample: a delivery that is still pending (it never passed
through assignment or transit) is moved straight to delivered by a single
endDelivery call, so the lifecycle does not enforce the
pending, assigned, on_transit, delivered chain. -/
theorem endDelivery_skips_stages_cex :
    statePending.deliveries.map DeliveryDoc.status = ["pending"] ∧
    (endDeliveryNotification 10 "c1" statePending).deliveries.map DeliveryDoc.status =
      ["delivered"] :=
  ⟨rfl, rfl⟩

/-- C4 (amended): whenever the customer in the signal has a live
connection, the match cache holds a record, and that record names an
existing delivery, endDelivery sets that delivery status to delivered and
startDelivery sets it to on_transit, unconditionally and regardless of the
current status; the stage chain is not checked. -/
theorem lifecycle_sets_status_unconditionally (adminCharges : ℚ) (cid : String)
    (s : SysState) (sock : Socket) (mc : MatchRecord)
    (hs : mapGet s.socketMap cid = some sock) (hc : s.matchCache = some mc)
    (hd : (s.deliveries.find? (fun d => d.did == mc.deliveryId)).isSome = true) :
    ((endDeliveryNotification adminCharges cid s).deliveries.find?
        (fun d => d.did == mc.deliveryId)).map DeliveryDoc.status = some "delivered" ∧
    ((startDeliveryNotification cid s).deliveries.find?
        (fun d => d.did == mc.deliveryId)).map DeliveryDoc.status = some "on_transit" := by
  obtain ⟨d0, hd0⟩ := Option.isSome_iff_exists.mp hd
  constructor
  · have hfe := find?_updateFirst (fun d => d.did == mc.deliveryId)
      (fun d => { d with status := "delivered" }) s.deliveries (fun d hdk => hdk)
    unfold endDeliveryNotification
    rw [hs, hc]
    show ((updateFirst (fun d => d.did == mc.deliveryId)
        (fun d => { d with status := "delivered" }) s.deliveries).1.find?
          (fun d => d.did == mc.deliveryId)).map DeliveryDoc.status = some "delivered"
    rw [hfe, hd0]
    rfl
  · have hfs := find?_updateFirst (fun d => d.did == mc.deliveryId)
      (fun d => { d with status := "on_transit" }) s.deliveries (fun d hdk => hdk)
    unfold startDeliveryNotification
    rw [hs, hc]
    show ((updateFirst (fun d => d.did == mc.deliveryId)
        (fun d => { d with status := "on_transit" }) s.deliveries).1.find?
          (fun d => d.did == mc.deliveryId)).map DeliveryDoc.status = some "on_transit"
    rw [hfs, hd0]
    rfl

/-- C4 witness: in the concrete connected state holding the pending
delivery d1, endDelivery reports it delivered and startDelivery reports it
on transit. -/
theorem lifecycle_sets_status_unconditionally_witness :
    ((endDeliveryNotification 10 "c1" statePending).deliveries.find?
        (fun d => d.did == mcW.deliveryId)).map DeliveryDoc.status = some "delivered" ∧
    ((startDeliveryNotification "c1" statePending).deliveries.find?
        (fun d => d.did == mcW.deliveryId)).map DeliveryDoc.status = some "on_transit" :=
  lifecycle_sets_status_unconditionally 10 "c1" statePending ⟨0, "s0"⟩ mcW
    (by decide) (by decide) (by decide)

/-- C5 counterexample: when the customer of a decline event has no live
connection, the relay does nothing at all: no riderDeclined is emitted and
the match cache record is still readable afterwards. -/
theorem riderDeclined_disconnected_cex :
    notifyUserAboutDriverResponse ⟨"r1", "c1", false⟩ stateDisconnected = stateDisconnected ∧
    stateDisconnected.matchCache = some mcW :=
  ⟨rfl, rfl⟩

/-- C5 (amended): whenever the customer of an availability = false
driver-response event has a live connection, the relay emits riderDeclined
to that connection and deletes the match cache record, which is no longer
readable afterwards. -/
theorem riderDeclined_when_connected (resp : DriverResponse) (s : SysState) (sock : Socket)
    (hs : mapGet s.socketMap resp.customerId = some sock) (ha : resp.availability = false) :
    (notifyUserAboutDriverResponse resp s).matchCache = none ∧
    Emit.mk sock.ref "riderDeclined" ∈ (notifyUserAboutDriverResponse resp s).emitted := by
  unfold notifyUserAboutDriverResponse
  rw [hs, ha]
  refine ⟨rfl, ?_⟩
  show Emit.mk sock.ref "riderDeclined" ∈
    (riderAvailability false s).emitted ++ [Emit.mk sock.ref "riderDeclined"]
  simp

/-- C5 witness: in the concrete connected state, a decline event leads to
riderDeclined on the customer socket and an unreadable match cache. -/
theorem riderDeclined_when_connected_witness :
    (notifyUserAboutDriverResponse ⟨"r1", "c1", false⟩ stateConnected).matchCache = none ∧
    Emit.mk 7 "riderDeclined" ∈
      (notifyUserAboutDriverResponse ⟨"r1", "c1", false⟩ stateConnected).emitted :=
  riderDeclined_when_connected ⟨"r1", "c1", false⟩ stateConnected ⟨7, "sC"⟩ (by decide) rfl

/-- C2 (code evaluated at the failing input): in the state where rider r1
already owns wallet w1 with balance 50 and completes a 100-unit delivery at
10 percent admin charge, endDelivery leaves the wallet at balance 50
instead of crediting riderFee = 90 (the update filters on _id = riderId,
which no wallet document carries); in the same scenario without a prior
wallet, the created wallet does receive balance 90. -/
theorem endDelivery_wallet_not_credited :
    (endDeliveryNotification 10 "c1" stateWithWallet).wallets = [⟨"w1", "r1", some 50⟩] ∧
    (endDeliveryNotification 10 "c1" statePending).wallets =
      [⟨"generated0", "r1", some 90⟩] := by
  constructor
  · rfl
  · have hupd : (updateFirst (fun d => d.did == mcW.deliveryId)
        (fun d => { d with status := "delivered" }) statePending.deliveries).2 =
        some ⟨"d1", "delivered", 100, none, 0, 0⟩ := rfl
    have hfee : endFees 10 (some (⟨"d1", "delivered", 100, none, 0, 0⟩ : DeliveryDoc)) =
        (some 10, some 90) := by
      unfold endFees
      norm_num [jsRound]
    show statePending.wallets ++
        [⟨"generated" ++ toString statePending.nextId, mcW.riderId,
          (endFees 10 (updateFirst (fun d => d.did == mcW.deliveryId)
            (fun d => { d with status := "delivered" }) statePending.deliveries).2).2⟩] =
      [⟨"generated0", "r1", some 90⟩]
    rw [hupd, hfee]
    rfl

/-- C6 (code evaluated at the failing input): with an empty delivery list
for the customer the falsy guard never fires (findAll returns an array and
an array is truthy), so findRiders throws a TypeError instead of the
intended NotFound rejection; the other two failure situations, an empty
radius query and no online/active candidate, do produce NotFound
rejections. -/
theorem findRiders_failure_modes :
    (∀ (geoNear : ℚ → ℚ → List RiderLoc) (lookup : String → Option RiderRec)
        (vehicleOf : String → Option Vehicle) (b c bu a : ℚ),
      findRiders [] geoNear lookup vehicleOf b c bu a = .typeError) ∧
    findRiders [dW] (fun _ _ => []) lookupW vehicleOfW 10 10 10 10 =
      .notFound "No riders available at the moment" ∧
    findRiders [dW] (fun _ _ => [⟨"rOffline", 1000⟩]) lookupW vehicleOfW 10 10 10 10 =
      .notFound "No rider is currently online" :=
  ⟨fun _ _ _ _ _ _ _ => rfl, by decide, by decide⟩
